import Mathlib

/-!
Shallow embedding of the barangay records system (`app.py`, `models.py`,
`auth.py`): the generic schema-driven CRUD engine (create / edit / delete of
the five record types), the status deriver, the audit log, account
management, listing / pagination, CSV export and backup / restore / reset.

Python machine values are modelled by `Value`; dates are civil `(y, m, d)`
triples compared through their day ordinal `daysFromCivil`, which is exactly
how `datetime.date` ordering and `timedelta(days=n)` addition behave.
-/

namespace Brgy

/-- A value as it flows through the request handlers: `vNone` is Python
`None` / SQL NULL; `vStr` and `vInt` are primitives; `vDate y m d` is a
`datetime.date`; `vDatetime y m d h mi se` a `datetime.datetime`. Every
numeric column of `models.py` is `Integer`, so no float constructor is
needed (the `float(val)` branch of `app.py` is unreachable for this
schema). -/
inductive Value where
  | vNone : Value
  | vStr : String → Value
  | vInt : Int → Value
  | vDate : Nat → Nat → Nat → Value
  | vDatetime : Nat → Nat → Nat → Nat → Nat → Nat → Value
deriving DecidableEq, Repr

/-- Python truthiness of a stored `Value` (`None`, `""` and `0` are falsy;
`date` / `datetime` objects are always truthy). -/
def Value.truthy : Value → Bool
  | .vNone => false
  | .vStr s => !(s == "")
  | .vInt n => !(n == 0)
  | .vDate _ _ _ => true
  | .vDatetime _ _ _ _ _ _ => true

/-- Python truthiness of `request.form.get(name)`: `None` (absent key) and
the empty string are falsy. -/
def strTruthy : Option String → Bool
  | none => false
  | some s => !(s == "")

/-- One column of a model table, as `app.py` inspects it: its name, whether
`column_is_date` / `column_is_numeric` hold for it, and its declared
nullability.  (`column_is_numeric` columns of this schema are all
`Integer`-kinded.) -/
structure Column where
  name : String
  isDate : Bool
  isNumeric : Bool
  nullable : Bool
deriving DecidableEq, Repr

/-- An ORM row: the primary key plus the non-id column values in column
order. -/
structure Rec where
  id : Nat
  fields : List (String × Value)
deriving DecidableEq, Repr

/-- The attribute read `getattr(row, n)`: the id itself for `"id"`, else the
stored column value (NULL when absent). -/
def Rec.get (r : Rec) (n : String) : Value :=
  if n == "id" then .vInt (r.id : Int) else (r.fields.lookup n).getD .vNone

/-- Submitted form data (`request.form`), first value per key. -/
abbrev Form := List (String × String)

/-- The read `request.form.get(name)`: `none` when the key is absent. -/
def formGet (f : Form) (n : String) : Option String := List.lookup n f

/-- Character-list test: `pat` is an initial segment of the second list. -/
def listStartsWith : List Char → List Char → Bool
  | [], _ => true
  | _ :: _, [] => false
  | p :: ps, c :: cs => p == c && listStartsWith ps cs

/-- Character-list substring containment, scanning every suffix. -/
def listHasSub (pat : List Char) : List Char → Bool
  | [] => listStartsWith pat []
  | c :: cs => listStartsWith pat (c :: cs) || listHasSub pat cs

/-- Python's substring operator `pat in hay`. -/
def strHasSub (hay pat : String) : Bool := listHasSub pat.data hay.data

/-- ASCII lower-casing of one character (the case Python's `str.lower`
performs on this system's ASCII data). -/
def charLower (c : Char) : Char :=
  if 'A' ≤ c && c ≤ 'Z' then Char.ofNat (c.toNat + 32) else c

/-- ASCII upper-casing of one character. -/
def charUpper (c : Char) : Char :=
  if 'a' ≤ c && c ≤ 'z' then Char.ofNat (c.toNat - 32) else c

/-- Python `str.lower()`. -/
def strToLower (s : String) : String := String.mk (s.data.map charLower)

/-- Split a character list on a separator (the splitting behind Python's
`str.split` on a single-character separator). -/
def splitOnChar (sep : Char) : List Char → List (List Char)
  | [] => [[]]
  | c :: rest =>
    let r := splitOnChar sep rest
    if c == sep then [] :: r
    else
      match r with
      | [] => [[c]]
      | h :: t => (c :: h) :: t

/-- The numeric value of a decimal digit character. -/
def digitToNat? (c : Char) : Option Nat :=
  if '0' ≤ c && c ≤ '9' then some (c.toNat - '0'.toNat) else none

/-- Parse a non-empty all-digit character list as a natural number. -/
def digitsToNat? (cs : List Char) : Option Nat :=
  match cs with
  | [] => none
  | _ =>
    cs.foldl (fun acc c =>
      match acc, digitToNat? c with
      | some a, some d => some (a * 10 + d)
      | _, _ => none) (some 0)

/-- One decimal digit as a character. -/
def digitChar : Nat → Char
  | 0 => '0' | 1 => '1' | 2 => '2' | 3 => '3' | 4 => '4'
  | 5 => '5' | 6 => '6' | 7 => '7' | 8 => '8' | 9 => '9'
  | _ => '*'

/-- Decimal digits of a natural number (fuel-driven so that it computes by
kernel reduction). -/
def natToStrAux : Nat → Nat → List Char
  | 0, _ => []
  | fuel + 1, n =>
    if n < 10 then [digitChar n] else natToStrAux fuel (n / 10) ++ [digitChar (n % 10)]

/-- Python `str(n)` for a natural number. -/
def natToStr (n : Nat) : String := String.mk (natToStrAux (n + 1) n)

/-- Python `str(n)` for an integer. -/
def intToStr (n : Int) : String :=
  if n < 0 then "-" ++ natToStr n.natAbs else natToStr n.natAbs

/-- Whitespace as Python `str.strip` removes it. -/
def isSpaceChar (c : Char) : Bool :=
  c == ' ' || c == '\t' || c == '\n' || c == '\r'

/-- Python `str.strip()` on a character list. -/
def trimChars (cs : List Char) : List Char :=
  ((cs.dropWhile isSpaceChar).reverse.dropWhile isSpaceChar).reverse

/-- Left zero-padding of a number to `w` digits (Python `%0wd`). -/
def pad (w n : Nat) : String :=
  let s := natToStr n
  String.mk (List.replicate (w - s.length) '0') ++ s

/-- ISO rendering of a civil date, as `datetime.date.isoformat` /
`str(date)` produce it: `YYYY-MM-DD` zero-padded. -/
def isoDate (y m d : Nat) : String :=
  pad 4 y ++ "-" ++ pad 2 m ++ "-" ++ pad 2 d

/-- Python `str(value)` as the handlers use it (f-strings, csv cells):
`str(None) = "None"`, `str(date)` is its ISO form, `str(datetime)` is
`"YYYY-MM-DD HH:MM:SS"`. -/
def pyStr : Value → String
  | .vNone => "None"
  | .vStr s => s
  | .vInt n => intToStr n
  | .vDate y m d => isoDate y m d
  | .vDatetime y m d h mi se =>
      isoDate y m d ++ " " ++ pad 2 h ++ ":" ++ pad 2 mi ++ ":" ++ pad 2 se

/-- Gregorian leap-year test. -/
def isLeap (y : Nat) : Bool := (y % 4 == 0 && !(y % 100 == 0)) || y % 400 == 0

/-- Days of a civil month. -/
def daysInMonth (y m : Nat) : Nat :=
  if m == 2 then (if isLeap y then 29 else 28)
  else if m == 4 || m == 6 || m == 9 || m == 11 then 30 else 31

/-- Day ordinal of a proleptic-Gregorian civil date (days since
1970-01-01).  `datetime.date` comparison agrees with this ordinal and
`d + timedelta(days = n)` adds `n` to it, so date comparisons of `app.py`
are embedded as integer comparisons of ordinals. -/
def daysFromCivil (y m d : Nat) : Int :=
  let yi : Int := (y : Int) - (if m ≤ 2 then 1 else 0)
  let era : Int := yi / 400
  let yoe : Int := yi - era * 400
  let mp : Int := if 2 < m then (m : Int) - 3 else (m : Int) + 9
  let doy : Int := (153 * mp + 2) / 5 + (d : Int) - 1
  let doe : Int := yoe * 365 + yoe / 4 - yoe / 100 + doy
  era * 146097 + doe - 719468

/-- Executable model of `datetime.strptime(s, "%Y-%m-%d").date()` on a
character list: a dash-separated, range-checked civil date.  Claim theorems
depend only on whether this parse succeeds or fails at the strings they
quantify over. -/
def parseYMDList (cs : List Char) : Option (Nat × Nat × Nat) :=
  match splitOnChar '-' cs with
  | [ys, ms, ds] =>
    match digitsToNat? ys, digitsToNat? ms, digitsToNat? ds with
    | some y, some m, some d =>
      if ys.length == 4 && 1 ≤ m && m ≤ 12 && 1 ≤ d && d ≤ daysInMonth y m then
        some (y, m, d)
      else none
    | _, _, _ => none
  | _ => none

/-- Executable model of `datetime.strptime(s, "%Y-%m-%d").date()`. -/
def parseYMD (s : String) : Option (Nat × Nat × Nat) := parseYMDList s.data

/-- Executable model of the `HH:MM[:SS]` clock part accepted by
`datetime.fromisoformat`. -/
def parseHMS (cs : List Char) : Option (Nat × Nat × Nat) :=
  match splitOnChar ':' cs with
  | [hs, ms] =>
    match digitsToNat? hs, digitsToNat? ms with
    | some h, some mi => if h < 24 && mi < 60 then some (h, mi, 0) else none
    | _, _ => none
  | [hs, ms, ss] =>
    match digitsToNat? hs, digitsToNat? ms, digitsToNat? ss with
    | some h, some mi, some se =>
        if h < 24 && mi < 60 && se < 60 then some (h, mi, se) else none
    | _, _, _ => none
  | _ => none

/-- Executable model of `datetime.fromisoformat(s)` (the general date-time
fallback parse of the create path): a 10-character ISO date, optionally
followed by a one-character separator and a clock part. -/
def parseIsoDatetime (s : String) : Option (Nat × Nat × Nat × Nat × Nat × Nat) :=
  let cs := s.data
  if cs.length == 10 then
    (parseYMDList cs).map (fun p => (p.1, p.2.1, p.2.2, 0, 0, 0))
  else if 10 < cs.length then
    match parseYMDList (cs.take 10), parseHMS (cs.drop 11) with
    | some (y, m, d), some (h, mi, se) => some (y, m, d, h, mi, se)
    | _, _ => none
  else none

/-- Model of Python `int(s)` on a submitted string: surrounding whitespace
stripped, optional sign, decimal digits. -/
def pyInt? (s : String) : Option Int :=
  match trimChars s.data with
  | '-' :: rest => (digitsToNat? rest).map (fun n => -(n : Int))
  | '+' :: rest => (digitsToNat? rest).map (fun n => (n : Int))
  | cs => (digitsToNat? cs).map (fun n => (n : Int))

/-- One word of Python `str.title()`: first letter upper-cased, the rest
lower-cased. -/
def titleWord : List Char → List Char
  | [] => []
  | c :: rest => charUpper c :: rest.map charLower

/-- Join words with single spaces. -/
def joinSpaces : List (List Char) → List Char
  | [] => []
  | [w] => w
  | w :: ws => w ++ ' ' :: joinSpaces ws

/-- Python `str.title()` after `replace("_", " ")`, as the required-field
flash message renders a column name. -/
def titleCase (s : String) : String :=
  String.mk (joinSpaces ((splitOnChar ' '
    (s.data.map (fun c => if c == '_' then ' ' else c))).map titleWord))

/-- The flash text `f"'{rf.replace('_',' ').title()}' is required!"`. -/
def requiredMsg (rf : String) : String := "'" ++ titleCase rf ++ "' is required!"

/-- The five managed record types of `register_routes` / the edit, delete
and print mappings. -/
inductive RType where
  | barangayID | clearance | indigency | goodmoral | firstjob
deriving DecidableEq, Repr

/-- A plain nullable string column. -/
def strCol (n : String) : Column := ⟨n, false, false, true⟩

/-- A nullable `db.Date` column. -/
def dateCol (n : String) : Column := ⟨n, true, false, true⟩

/-- A nullable `db.Integer` column. -/
def intCol (n : String) : Column := ⟨n, false, true, true⟩

/-- The integer primary key (non-nullable). -/
def idCol : Column := ⟨"id", false, true, false⟩

/-- The `name` column, the one non-nullable data column of every record
model. -/
def nameCol : Column := ⟨"name", false, false, false⟩

/-- The ordered column lists of the five record models of `models.py`. -/
def recordCols : RType → List Column
  | .barangayID =>
      [idCol, nameCol, strCol "address", strCol "phone_number", strCol "gender",
       strCol "registered_voter", strCol "nonreg_proof", dateCol "birthday",
       strCol "purpose", strCol "status", dateCol "date_issued"]
  | .clearance =>
      [idCol, nameCol, strCol "address", strCol "phone_number", dateCol "birthday",
       strCol "birthplace", strCol "gender", strCol "civil_status",
       strCol "purpose", strCol "status", dateCol "date_issued"]
  | .indigency =>
      [idCol, nameCol, strCol "address", strCol "gender", strCol "purpose",
       strCol "status", dateCol "date_issued"]
  | .goodmoral =>
      [idCol, nameCol, strCol "address", dateCol "date_of_birth", strCol "gender",
       strCol "civil_status", intCol "length_of_residency", strCol "purpose",
       strCol "status", dateCol "date_issued"]
  | .firstjob =>
      [idCol, nameCol, strCol "address", dateCol "date_of_birth", strCol "gender",
       intCol "length_of_residency", dateCol "date_issued"]

/-- The SQL table name (`Model.__tablename__`, Flask-SQLAlchemy's snake-case
of the class name) of each record type. -/
def tableName : RType → String
  | .barangayID => "barangay_id"
  | .clearance => "clearance"
  | .indigency => "indigency"
  | .goodmoral => "good_moral"
  | .firstjob => "first_job_seeker"

/-- A row of the `user` table. -/
structure UserRec where
  id : Nat
  username : String
  password : String
  role : String
deriving DecidableEq, Repr

/-- A row of the `activity_log` table as `log_activity` writes it (the
`timestamp` column is filled by its model default and carries no claim
content, so it is not modelled). -/
structure LogEntry where
  user : String
  action : String
  table_name : String
  record_id : Option String
deriving DecidableEq, Repr

/-- The database state: the `user` table, the five record tables and the
activity log. -/
structure AppState where
  users : List UserRec
  barangay_id : List Rec
  clearance : List Rec
  indigency : List Rec
  good_moral : List Rec
  first_job_seeker : List Rec
  activity_log : List LogEntry
deriving DecidableEq, Repr

/-- The record table of one record type. -/
def getTable (s : AppState) : RType → List Rec
  | .barangayID => s.barangay_id
  | .clearance => s.clearance
  | .indigency => s.indigency
  | .goodmoral => s.good_moral
  | .firstjob => s.first_job_seeker

/-- Replace the record table of one record type. -/
def setTable (s : AppState) (rt : RType) (t : List Rec) : AppState :=
  match rt with
  | .barangayID => { s with barangay_id := t }
  | .clearance => { s with clearance := t }
  | .indigency => { s with indigency := t }
  | .goodmoral => { s with good_moral := t }
  | .firstjob => { s with first_job_seeker := t }

/-- The request session: `session.get("username")` and
`session.get("role")`. -/
structure Session where
  username : Option String
  role : Option String
deriving DecidableEq, Repr

/-- Python `a or b` on an optional string against a string default. -/
def orElseStr : Option String → String → String
  | some s, d => if s == "" then d else s
  | none, d => d

/-- The helper `log_activity(user, action, table_name, record_id)` of
`app.py`: normalises the table name to lowercase, falls back to
`"system"` for a missing actor, and appends one `ActivityLog` row.  Every
caller passes `session.get("username")` as `user`. -/
def log_activity (sess : Session) (action table_name : String)
    (record_id : Option String) (s : AppState) : AppState :=
  { s with activity_log :=
      s.activity_log ++ [⟨orElseStr sess.username "system", action, strToLower table_name, record_id⟩] }

/-- The attribute search order of `best_display`. -/
def displayAttrs : List String :=
  ["name", "full_name", "username", "first_name", "resident_name", "title"]

/-- The helper `best_display(obj)` on a record row: the first truthy display
attribute yields `"{id} - {attr}"`, else the bare id. -/
def best_display (r : Rec) : String :=
  match displayAttrs.find? (fun a => (Rec.get r a).truthy) with
  | some a => natToStr r.id ++ " - " ++ pyStr (Rec.get r a)
  | none => natToStr r.id

/-- The helper `best_display(user)` on a user row (`username` is its first
truthy display attribute). -/
def userBestDisplay (u : UserRec) : String :=
  if u.username == "" then natToStr u.id else natToStr u.id ++ " - " ++ u.username

/-- Create-path coercion of one submitted value for one column (`app.py`
lines 286-312 of `view_func`): a non-empty string in a date column is
parsed as `%Y-%m-%d`, falling back to `fromisoformat`, falling back to
`None`; a non-empty string in a numeric (Integer-kinded) column is parsed
as `int`, keeping the raw string on failure; everything else passes
through; an absent key is `None`. -/
def coerceCreate (c : Column) (v : Option String) : Value :=
  match v with
  | none => .vNone
  | some s =>
    if s == "" then .vStr ""
    else if c.isDate then
      match parseYMD s with
      | some (y, m, d) => .vDate y m d
      | none =>
        match parseIsoDatetime s with
        | some (y, m, d, h, mi, se) => .vDatetime y m d h mi se
        | none => .vNone
    else if c.isNumeric then
      match pyInt? s with
      | some n => .vInt n
      | none => .vStr s
    else .vStr s

/-- Edit-path coercion of one submitted value (`edit_record`, `app.py`
lines 436-447): identical to the create path except that a failed
`%Y-%m-%d` parse keeps the raw string (`except: pass`) with no
`fromisoformat` fallback and no fall-through to `None`. -/
def coerceEdit (c : Column) (v : Option String) : Value :=
  match v with
  | none => .vNone
  | some s =>
    if s == "" then .vStr ""
    else if c.isDate then
      match parseYMD s with
      | some (y, m, d) => .vDate y m d
      | none => .vStr s
    else if c.isNumeric then
      match pyInt? s with
      | some n => .vInt n
      | none => .vStr s
    else .vStr s

/-- The non-nullable non-id column names checked by the create handler. -/
def requiredFields (cols : List Column) : List String :=
  (cols.filter (fun c => !c.nullable && !(c.name == "id"))).map Column.name

/-- Replace the value stored under a field name. -/
def setField : List (String × Value) → String → Value → List (String × Value)
  | [], _, _ => []
  | p :: rest, n, v =>
    (if p.1 == n then (n, v) else p) :: setField rest n v

/-- The `setattr` loop of the create handler: every non-id column is
assigned the coercion of its form value. -/
def createFields (cols : List Column) (form : Form) : List (String × Value) :=
  cols.filterMap (fun c =>
    if c.name == "id" then none else some (c.name, coerceCreate c (formGet form c.name)))

/-- Is there a column of this name (`hasattr` on the ORM object)? -/
def hasField (cols : List Column) (n : String) : Bool :=
  cols.any (fun c => c.name == n)

/-- The create handler's default: if the model has a `status` column and the
coerced value is falsy, store `"Valid"`. -/
def defaultStatus (cols : List Column) (fs : List (String × Value)) :
    List (String × Value) :=
  if hasField cols "status" && !((fs.lookup "status").getD .vNone).truthy then
    setField fs "status" (.vStr "Valid")
  else fs

/-- The next autoincrement primary key of a table. -/
def nextId (t : List Rec) : Nat := (t.map Rec.id).foldr max 0 + 1

/-- The next autoincrement primary key of the user table. -/
def nextUserId (t : List UserRec) : Nat := (t.map UserRec.id).foldr max 0 + 1

/-- Outcome of a POST to the generic create route. -/
inductive CreateResult where
  | missingField (msg : String)
  | duplicate (msg : String)
  | created (row : Rec)
deriving DecidableEq, Repr

/-- The POST branch of the generic `view_func` (`app.py` lines 267-329):
reject naming the first missing required field; else reject a duplicate
`name` within the same record type; else build the row by coercion, apply
the status default, insert it and append a `CREATE` audit entry. -/
def createRecord (sess : Session) (rt : RType) (form : Form) (s : AppState) :
    CreateResult × AppState :=
  let cols := recordCols rt
  match (requiredFields cols).find? (fun rf => !strTruthy (formGet form rf)) with
  | some rf => (.missingField (requiredMsg rf), s)
  | none =>
    let t := getTable s rt
    match formGet form "name" with
    | some n =>
      if !(n == "") && t.any (fun r => Rec.get r "name" == .vStr n) then
        (.duplicate "This person already exists in the records!", s)
      else
        let row : Rec := ⟨nextId t, defaultStatus cols (createFields cols form)⟩
        (.created row,
         log_activity sess "CREATE" (tableName rt) (some (best_display row))
           (setTable s rt (t ++ [row])))
    | none =>
      let row : Rec := ⟨nextId t, defaultStatus cols (createFields cols form)⟩
      (.created row,
       log_activity sess "CREATE" (tableName rt) (some (best_display row))
         (setTable s rt (t ++ [row])))

/-- The `setattr` loop of `edit_record`: every non-id column of the existing
row is overwritten with the edit-path coercion of its form value; the id is
kept. -/
def editFields (cols : List Column) (form : Form) (r : Rec) : Rec :=
  ⟨r.id, cols.filterMap (fun c =>
    if c.name == "id" then none else some (c.name, coerceEdit c (formGet form c.name)))⟩

/-- The POST branch of `edit_record` (`app.py` lines 427-458): a 404 when
the id is absent leaves the state unchanged; otherwise the row is
overwritten from the form with no required-field or duplicate-name check,
and an `UPDATE` audit entry is appended. -/
def editRecord (sess : Session) (rt : RType) (rid : Nat) (form : Form)
    (s : AppState) : AppState :=
  let t := getTable s rt
  match t.find? (fun r => r.id == rid) with
  | none => s
  | some r =>
    let r' := editFields (recordCols rt) form r
    log_activity sess "UPDATE" (tableName rt) (some (best_display r'))
      (setTable s rt (t.map (fun x => if x.id == rid then r' else x)))

/-- The `delete_record` route: remove the row and append a `DELETE` audit
entry carrying the pre-deletion display snapshot. -/
def deleteRecord (sess : Session) (rt : RType) (rid : Nat) (s : AppState) :
    AppState :=
  let t := getTable s rt
  match t.find? (fun r => r.id == rid) with
  | none => s
  | some r =>
    log_activity sess "DELETE" (tableName rt) (some (best_display r))
      (setTable s rt (t.filter (fun x => !(x.id == rid))))

/-- Model of `werkzeug.security.generate_password_hash` (external library):
an injective tagging of the plaintext stands in for the salted hash. -/
def generate_password_hash (pw : String) : String := "pbkdf2:" ++ pw

/-- The `add_user` route (`app.py` lines 809-832): admin-gated; rejects an
existing username; else inserts the new user and logs `CREATE USER`.  A
missing form field is modelled as `""` (the account form always posts all
three fields). -/
def add_user (sess : Session) (form : Form) (s : AppState) : AppState :=
  if !(sess.role == some "admin") then s
  else
    let username := formGet form "username"
    if s.users.any (fun u => username == some u.username) then s
    else
      let nu : UserRec :=
        ⟨nextUserId s.users, username.getD "",
         generate_password_hash ((formGet form "password").getD ""),
         (formGet form "role").getD ""⟩
      log_activity sess "CREATE USER" "users" (some (userBestDisplay nu))
        { s with users := s.users ++ [nu] }

/-- The `update_password` route (`app.py` lines 834-854).  Note: this route
has no session-role check; it rejects only a mismatched confirmation or an
unknown username, then rewrites the stored hash and logs
`CHANGE PASSWORD`. -/
def update_password (sess : Session) (form : Form) (s : AppState) : AppState :=
  let newPw := formGet form "new_password"
  if !(newPw == formGet form "confirm_password") then s
  else
    match s.users.find? (fun u => formGet form "username" == some u.username) with
    | none => s
    | some u =>
      log_activity sess "CHANGE PASSWORD" "users" (some (userBestDisplay u))
        { s with users := s.users.map (fun x =>
            if x.id == u.id then { x with password := generate_password_hash (newPw.getD "") } else x) }

/-- The `reset_user_password` route: admin-gated; resets the stored hash to
the hash of `"password123"` and logs `RESET PASSWORD`. -/
def reset_user_password (sess : Session) (uid : Nat) (s : AppState) : AppState :=
  if !(sess.role == some "admin") then s
  else
    match s.users.find? (fun u => u.id == uid) with
    | none => s
    | some u =>
      log_activity sess "RESET PASSWORD" "users" (some (userBestDisplay u))
        { s with users := s.users.map (fun x =>
            if x.id == uid then { x with password := generate_password_hash "password123" } else x) }

/-- The `delete_user` route: admin-gated; removes the row and logs
`DELETE USER` with the pre-deletion display snapshot. -/
def delete_user (sess : Session) (uid : Nat) (s : AppState) : AppState :=
  if !(sess.role == some "admin") then s
  else
    match s.users.find? (fun u => u.id == uid) with
    | none => s
    | some u =>
      log_activity sess "DELETE USER" "users" (some (userBestDisplay u))
        { s with users := s.users.filter (fun x => !(x.id == uid)) }

/-- The `forgot_password` route (`app.py` lines 194-217).  Note: this route
is reachable with no login and has no role check; an unknown username is
rejected, otherwise the password is reset to `username + "123"` and
`RESET PASSWORD` is logged with the bare numeric id. -/
def forgot_password (sess : Session) (form : Form) (s : AppState) : AppState :=
  let username := formGet form "username"
  match s.users.find? (fun u => username == some u.username) with
  | none => s
  | some u =>
    log_activity sess "RESET PASSWORD" "users" (some (natToStr u.id))
      { s with users := s.users.map (fun x =>
          if x.id == u.id then
            { x with password := generate_password_hash (username.getD "" ++ "123") } else x) }

/-- The `reset_database` route (`app.py` lines 977-997): every table whose
name is not in `protected_tables = ["user"]` is emptied — the five record
tables and also `activity_log`.  No audit entry is written. -/
def reset_database (s : AppState) : AppState :=
  { s with barangay_id := [], clearance := [], indigency := [],
           good_moral := [], first_job_seeker := [], activity_log := [] }

/-- The effect of a successful `restore_database` POST when the uploaded
file is a backup of this application's database (so it contains exactly the
application's tables): every non-`user` table, `activity_log` included, is
emptied and refilled from the backup, while the live `user` rows are kept.
The raw per-table loop over the backup's `sqlite_master` is modelled by
`restoreTables` below. -/
def restore_database (b : AppState) (s : AppState) : AppState :=
  { b with users := s.users }

/-- One request against the system: the operations the claims quantify
over.  `backup` (`backup_database`) copies the database file and changes no
rows; `restore b` carries the uploaded backup's contents. -/
inductive Op where
  | create (rt : RType) (form : Form)
  | edit (rt : RType) (rid : Nat) (form : Form)
  | delete (rt : RType) (rid : Nat)
  | addUser (form : Form)
  | updatePassword (form : Form)
  | resetUserPassword (uid : Nat)
  | deleteUser (uid : Nat)
  | forgotPassword (form : Form)
  | backup
  | restore (b : AppState)
  | reset

/-- The state transition of one request. -/
def step (sess : Session) (op : Op) (s : AppState) : AppState :=
  match op with
  | .create rt form => (createRecord sess rt form s).2
  | .edit rt rid form => editRecord sess rt rid form s
  | .delete rt rid => deleteRecord sess rt rid s
  | .addUser form => add_user sess form s
  | .updatePassword form => update_password sess form s
  | .resetUserPassword uid => reset_user_password sess uid s
  | .deleteUser uid => delete_user sess uid s
  | .forgotPassword form => forgot_password sess form s
  | .backup => s
  | .restore b => restore_database b s
  | .reset => reset_database s

/-- The lowered purpose text read by the status recompute:
`(getattr(r, "purpose", "") or "")`, i.e. the stored string, `""` for a
NULL or absent purpose. -/
def purposeText (r : Rec) : String :=
  match r.fields.lookup "purpose" with
  | some (.vStr s) => s
  | _ => ""

/-- The validity window in months: 12 when the lowered purpose contains the
substring `"business"`, else 6. -/
def validityMonths (purpose : String) : Nat :=
  if strHasSub (strToLower purpose) "business" then 12 else 6

/-- The derived status over day ordinals: `"Expired"` when today is
strictly after `date_issued + timedelta(days = 30 * months)`, else
`"Valid"` (a month is exactly 30 days). -/
def deriveStatus (purpose : String) (issued today : Int) : String :=
  if issued + 30 * (validityMonths purpose : Int) < today then "Expired" else "Valid"

/-- The per-row body of the status recompute loop shared by `view_func` and
`print_view`: when `date_issued` holds a date and the model has a `status`
column, overwrite `status` with the derived value.  (A `datetime`-valued
`date_issued` would make the Python `today > expiry` comparison raise
`TypeError`; the claims quantify over date-valued rows, and other rows are
returned unchanged here.) -/
def applyStatus (cols : List Column) (today : Int) (r : Rec) : Rec :=
  match r.fields.lookup "date_issued" with
  | some (.vDate y m d) =>
      if hasField cols "status" then
        ⟨r.id, setField r.fields "status"
          (.vStr (deriveStatus (purposeText r) (daysFromCivil y m d) today))⟩
      else r
  | _ => r

/-- The interactive listing order: `order_by(Model.id.desc())`. -/
def sortByIdDesc (t : List Rec) : List Rec :=
  List.insertionSort (fun a b => b.id ≤ a.id) t

/-- The print / export order: `order_by(Model.id.asc())`. -/
def sortByIdAsc (t : List Rec) : List Rec :=
  List.insertionSort (fun a b => a.id ≤ b.id) t

/-- The GET branch of `view_func` up to pagination: fetch descending by id,
then recompute statuses. -/
def interactiveRecords (cols : List Column) (today : Int) (t : List Rec) :
    List Rec :=
  (sortByIdDesc t).map (applyStatus cols today)

/-- The `print_view` fetch: ascending by id, then recompute statuses. -/
def printRecords (cols : List Column) (today : Int) (t : List Rec) :
    List Rec :=
  (sortByIdAsc t).map (applyStatus cols today)

/-- The pagination slice of `view_func`: fixed `per_page = 10`, 1-indexed
`page` parameter, `records[(page-1)*10 : (page-1)*10 + 10]`. -/
def paginate {α : Type} (page : Nat) (records : List α) : List α :=
  (records.drop ((page - 1) * 10)).take 10

/-- The per-value conversion of `row_to_dict`: a `datetime` becomes its
date's ISO string; a `date` in a date column becomes its ISO string; all
other values pass through. -/
def dictValue (c : Column) (v : Value) : Value :=
  match v with
  | .vDatetime y m d _ _ _ => .vStr (isoDate y m d)
  | .vDate y m d => if c.isDate then .vStr (isoDate y m d) else .vDate y m d
  | v => v

/-- The helper `row_to_dict(row, Model)`: one entry per model column, in
schema order. -/
def row_to_dict (cols : List Column) (r : Rec) : List (String × Value) :=
  cols.map (fun c => (c.name, dictValue c (Rec.get r c.name)))

/-- One CSV cell of the export loop: a `datetime` renders as its date's ISO
string, `None` as the empty string, anything else as `str(v)`. -/
def csvCell (v : Value) : String :=
  match v with
  | .vDatetime y m d _ _ _ => isoDate y m d
  | .vNone => ""
  | v => pyStr v

/-- The CSV payload of `print_view?export=csv`: the header row of column
names in schema order, then one row per record dict, each cell rendered by
`csvCell` (`r.get(c)` is `None` for a missing key). -/
def csvExport (cols : List Column) (rows : List (List (String × Value))) :
    List (List String) :=
  (cols.map Column.name) ::
    rows.map (fun r => cols.map (fun c => csvCell ((r.lookup c.name).getD .vNone)))

/-- The full CSV pipeline of `print_view` for one record type: ascending
fetch, status recompute, `row_to_dict`, then the writer loop. -/
def printCsv (rt : RType) (today : Int) (t : List Rec) : List (List String) :=
  csvExport (recordCols rt)
    ((printRecords (recordCols rt) today t).map (row_to_dict (recordCols rt)))

/-- A raw SQLite table assignment: `DELETE FROM tn` followed by inserting
`rows`, i.e. replacing the rows stored under `tn`. -/
def setRows {Row : Type} (db : List (String × List Row)) (tn : String)
    (rows : List Row) : List (String × List Row) :=
  db.map (fun p => if p.1 == tn then (p.1, rows) else p)

/-- The restore loop of `restore_database` (`app.py` lines 944-964): over
the backup's `sqlite_master` tables in order, skip names whose lowering is
in `protected_tables = ["user"]`, else empty the live table and refill it
from the backup. -/
def restoreTables {Row : Type} (live backup : List (String × List Row)) :
    List (String × List Row) :=
  backup.foldl (fun acc p => if strToLower p.1 == "user" then acc else setRows acc p.1 p.2) live

/-- The raw table layout of this application's SQLite file, in
`sqlite_master` (creation) order. -/
def appRawDb {Row : Type} (u b c i g f a : List Row) : List (String × List Row) :=
  [("user", u), ("barangay_id", b), ("clearance", c), ("indigency", i),
   ("good_moral", g), ("first_job_seeker", f), ("activity_log", a)]

/-! ### Supporting lemmas -/

/-- After `setField`, an existing field reads back the new value. -/
theorem lookup_setField {fs : List (String × Value)} {n : String} {v w : Value}
    (h : fs.lookup n = some v) : (setField fs n w).lookup n = some w := by
  induction fs with
  | nil => simp at h
  | cons p rest ih =>
    obtain ⟨k, u⟩ := p
    by_cases hk : k = n
    · subst hk
      simp [setField, List.lookup_cons]
    · have h1 : ((k, u).1 == n) = false := by simpa using hk
      have h2 : (n == k) = false := by simpa using Ne.symm hk
      rw [List.lookup_cons, h2] at h
      simp only [setField, h1, Bool.false_eq_true, if_false, List.lookup_cons, h2]
      exact ih h

/-- In the non-id field list built from a duplicate-free column list, each
non-id column reads back its assigned value. -/
theorem lookup_colFields (val : Column → Value) :
    ∀ (cols : List Column), ((cols.map Column.name).Nodup) →
    ∀ c : Column, c ∈ cols → c.name ≠ "id" →
    (cols.filterMap (fun c' =>
       if c'.name == "id" then none else some (c'.name, val c'))).lookup c.name
      = some (val c) := by
  intro cols
  induction cols with
  | nil => intro _ c hc; exact absurd hc (List.not_mem_nil c)
  | cons c0 rest ih =>
    intro hnd c hc hid
    have hnd' : (rest.map Column.name).Nodup := (List.nodup_cons.mp hnd).2
    rcases List.mem_cons.mp hc with hceq | hcrest
    · subst hceq
      simp only [List.filterMap_cons]
      rw [if_neg (by simpa using hid)]
      simp [List.lookup]
    · have hne : ¬(c.name == c0.name) := by
        intro hb
        have : c.name = c0.name := by simpa using hb
        exact (List.nodup_cons.mp hnd).1 (this ▸ List.mem_map_of_mem Column.name hcrest)
      simp only [List.filterMap_cons]
      by_cases h0 : c0.name == "id"
      · rw [if_pos h0]; exact ih hnd' c hcrest hid
      · rw [if_neg h0]
        simp only [List.lookup, hne]
        exact ih hnd' c hcrest hid

/-- In the dict built from a duplicate-free column list by mapping, each
column reads back its assigned value. -/
theorem lookup_mapCols (val : Column → Value) :
    ∀ (cols : List Column), ((cols.map Column.name).Nodup) →
    ∀ c : Column, c ∈ cols →
    ((cols.map (fun c' => (c'.name, val c'))).lookup c.name) = some (val c) := by
  intro cols
  induction cols with
  | nil => intro _ c hc; exact absurd hc (List.not_mem_nil c)
  | cons c0 rest ih =>
    intro hnd c hc
    have hnd' : (rest.map Column.name).Nodup := (List.nodup_cons.mp hnd).2
    rcases List.mem_cons.mp hc with hceq | hcrest
    · subst hceq; simp [List.lookup]
    · have hne : ¬(c.name == c0.name) := by
        intro hb
        have : c.name = c0.name := by simpa using hb
        exact (List.nodup_cons.mp hnd).1 (this ▸ List.mem_map_of_mem Column.name hcrest)
      simp only [List.map_cons, List.lookup, hne]
      exact ih hnd' c hcrest

/-- The column names of each record model are distinct. -/
theorem recordCols_nodup (rt : RType) : ((recordCols rt).map Column.name).Nodup := by
  cases rt <;> decide

/-- In every record model, `name` is the single non-nullable non-id
column. -/
theorem requiredFields_recordCols (rt : RType) :
    requiredFields (recordCols rt) = ["name"] := by
  cases rt <;> rfl

/-- Changing a record table does not touch the activity log. -/
theorem setTable_activity_log (s : AppState) (rt : RType) (t : List Rec) :
    (setTable s rt t).activity_log = s.activity_log := by
  cases rt <;> rfl

/-- Changing a record table does not touch the user table. -/
theorem setTable_users (s : AppState) (rt : RType) (t : List Rec) :
    (setTable s rt t).users = s.users := by
  cases rt <;> rfl

/-- The audit helper appends exactly one entry. -/
theorem log_activity_log (sess : Session) (a tb : String) (rid : Option String)
    (s : AppState) :
    (log_activity sess a tb rid s).activity_log =
      s.activity_log ++ [⟨orElseStr sess.username "system", a, strToLower tb, rid⟩] := rfl

/-- The status recompute never changes a row's id. -/
theorem applyStatus_id (cols : List Column) (today : Int) (r : Rec) :
    (applyStatus cols today r).id = r.id := by
  unfold applyStatus
  split <;> (try split) <;> rfl

/-! ### Claims -/

/-- C2: for a record with a date-valued `date_issued` and a `status` field,
the derived status is `"Expired"` exactly when today's UTC date is strictly
after `date_issued + 30*w` days with `w = 12` when the lowered purpose
contains the substring `"business"` and `w = 6` otherwise, and `"Valid"`
otherwise; with `date_issued` 200 days ago this yields `"Expired"` without
`"business"` (200 > 180) and `"Valid"` with it (200 < 360); and the listing
loop stores exactly this derived value in the row's `status` field. -/
theorem c2_derived_status :
    (∀ (purpose : String) (issued today : Int),
        (deriveStatus purpose issued today = "Expired" ↔
          issued + 30 * (validityMonths purpose : Int) < today)
      ∧ (deriveStatus purpose issued today = "Valid" ↔
          ¬issued + 30 * (validityMonths purpose : Int) < today))
  ∧ (∀ purpose : String, strHasSub (strToLower purpose) "business" = true →
        validityMonths purpose = 12)
  ∧ (∀ purpose : String, strHasSub (strToLower purpose) "business" = false →
        validityMonths purpose = 6)
  ∧ (∀ (purpose : String) (today : Int),
        strHasSub (strToLower purpose) "business" = false →
        deriveStatus purpose (today - 200) today = "Expired")
  ∧ (∀ (purpose : String) (today : Int),
        strHasSub (strToLower purpose) "business" = true →
        deriveStatus purpose (today - 200) today = "Valid")
  ∧ (∀ (cols : List Column) (today : Int) (r : Rec) (y m d : Nat) (v0 : Value),
        r.fields.lookup "date_issued" = some (.vDate y m d) →
        r.fields.lookup "status" = some v0 →
        hasField cols "status" = true →
        (applyStatus cols today r).fields.lookup "status" =
          some (.vStr (deriveStatus (purposeText r) (daysFromCivil y m d) today))) := by
  refine ⟨fun purpose issued today => ?_, fun purpose h => ?_, fun purpose h => ?_,
    fun purpose today h => ?_, fun purpose today h => ?_,
    fun cols today r y m d v0 hdi hst hcols => ?_⟩
  · by_cases hc : issued + 30 * (validityMonths purpose : Int) < today
    · unfold deriveStatus
      rw [if_pos hc]
      exact ⟨⟨fun _ => hc, fun _ => rfl⟩,
        ⟨fun he => absurd he (by decide), fun hn => absurd hc hn⟩⟩
    · unfold deriveStatus
      rw [if_neg hc]
      exact ⟨⟨fun he => absurd he (by decide), fun hcc => absurd hcc hc⟩,
        ⟨fun _ => hc, fun _ => rfl⟩⟩
  · simp [validityMonths, h]
  · simp [validityMonths, h]
  · unfold deriveStatus
    have h6 : validityMonths purpose = 6 := by simp [validityMonths, h]
    rw [h6, if_pos (by push_cast; omega)]
  · unfold deriveStatus
    have h12 : validityMonths purpose = 12 := by simp [validityMonths, h]
    rw [h12, if_neg (by push_cast; omega)]
  · unfold applyStatus
    rw [hdi]
    simp only [hcols, if_true]
    exact lookup_setField hst

/-- C4: restoring a backup of this application's database leaves the `user`
table's rows unchanged and replaces every other table's rows (the five
record tables and `activity_log`) with exactly the backup's rows, both at
the raw per-table restore loop and at the state level. -/
theorem c4_restore_semantics :
    (∀ {Row : Type} (lu lb lc li lg lf la bu bb bc bi bg bf ba : List Row),
        restoreTables (appRawDb lu lb lc li lg lf la) (appRawDb bu bb bc bi bg bf ba) =
          appRawDb lu bb bc bi bg bf ba)
  ∧ (∀ (sess : Session) (b s : AppState),
        step sess (.restore b) s =
          { users := s.users, barangay_id := b.barangay_id, clearance := b.clearance,
            indigency := b.indigency, good_moral := b.good_moral,
            first_job_seeker := b.first_job_seeker, activity_log := b.activity_log }) := by
  exact ⟨fun lu lb lc li lg lf la bu bb bc bi bg bf ba => rfl, fun sess b s => rfl⟩

/-- C5: in every record type `name` is the only non-nullable non-id field,
and a create submission whose `name` is missing or empty is rejected with
the flash message naming that field, with the whole database state (all
tables and the activity log) unchanged. -/
theorem c5_missing_required_field :
    (∀ rt : RType, requiredFields (recordCols rt) = ["name"])
  ∧ (∀ (sess : Session) (rt : RType) (form : Form) (s : AppState),
        strTruthy (formGet form "name") = false →
        createRecord sess rt form s = (.missingField "'Name' is required!", s)) := by
  refine ⟨requiredFields_recordCols, fun sess rt form s h => ?_⟩
  simp only [createRecord, requiredFields_recordCols]
  simp only [List.find?, h, Bool.not_false]
  rfl

/-- C6: a create submission whose non-empty `name` equals the name of an
existing record of the same record type is rejected with the duplicate
flash message and the state unchanged; when no record of that type carries
the name (regardless of the other types' tables), the create proceeds and
appends the new row to that type's table only. -/
theorem c6_duplicate_name :
    (∀ (sess : Session) (rt : RType) (form : Form) (s : AppState) (n : String),
        formGet form "name" = some n → (n == "") = false →
        (getTable s rt).any (fun r => Rec.get r "name" == Value.vStr n) = true →
        createRecord sess rt form s =
          (.duplicate "This person already exists in the records!", s))
  ∧ (∀ (sess : Session) (rt : RType) (form : Form) (s : AppState) (n : String),
        formGet form "name" = some n → (n == "") = false →
        (getTable s rt).any (fun r => Rec.get r "name" == Value.vStr n) = false →
        createRecord sess rt form s =
          (.created ⟨nextId (getTable s rt),
              defaultStatus (recordCols rt) (createFields (recordCols rt) form)⟩,
            log_activity sess "CREATE" (tableName rt)
              (some (best_display ⟨nextId (getTable s rt),
                defaultStatus (recordCols rt) (createFields (recordCols rt) form)⟩))
              (setTable s rt (getTable s rt ++
                [⟨nextId (getTable s rt),
                  defaultStatus (recordCols rt) (createFields (recordCols rt) form)⟩])))) := by
  constructor
  · intro sess rt form s n hn hne hdup
    simp only [createRecord, requiredFields_recordCols]
    simp only [List.find?, hn, strTruthy, hne, Bool.not_false, Bool.not_true]
    simp only [hn, hne, hdup, Bool.not_false, Bool.true_and, if_true]
  · intro sess rt form s n hn hne hdup
    simp only [createRecord, requiredFields_recordCols]
    simp only [List.find?, hn, strTruthy, hne, Bool.not_false, Bool.not_true]
    simp [hn, hne, hdup]

/-- C8: the interactive listing is ordered by descending id, the print /
export listing by ascending id (each a permutation of the table's ids),
and the pagination slice with fixed page size 10 and a 1-indexed page
parameter puts exactly positions `(p-1)*10 .. p*10-1` of the ordered
result on page `p`. -/
theorem c8_order_and_pagination :
    (∀ (cols : List Column) (today : Int) (t : List Rec),
        List.Sorted (fun a b : Rec => b.id ≤ a.id) (interactiveRecords cols today t)
      ∧ ((interactiveRecords cols today t).map Rec.id).Perm (t.map Rec.id))
  ∧ (∀ (cols : List Column) (today : Int) (t : List Rec),
        List.Sorted (fun a b : Rec => a.id ≤ b.id) (printRecords cols today t)
      ∧ ((printRecords cols today t).map Rec.id).Perm (t.map Rec.id))
  ∧ (∀ (p i : Nat) (l : List Rec),
        (paginate p l)[i]? = if i < 10 then l[(p - 1) * 10 + i]? else none) := by
  have hidmap : ∀ (cols : List Column) (today : Int) (u : List Rec),
      (u.map (applyStatus cols today)).map Rec.id = u.map Rec.id := by
    intro cols today u
    rw [List.map_map]
    exact List.map_congr_left (fun r _ => applyStatus_id cols today r)
  refine ⟨fun cols today t => ⟨?_, ?_⟩, fun cols today t => ⟨?_, ?_⟩, fun p i l => ?_⟩
  · haveI : IsTotal Rec (fun a b : Rec => b.id ≤ a.id) := ⟨fun a b => le_total b.id a.id⟩
    haveI : IsTrans Rec (fun a b : Rec => b.id ≤ a.id) :=
      ⟨fun _ _ _ h1 h2 => le_trans h2 h1⟩
    exact (List.sorted_insertionSort _ t).map _
      (fun a b h => by simpa [applyStatus_id] using h)
  · rw [interactiveRecords, hidmap]
    exact (List.perm_insertionSort _ t).map Rec.id
  · haveI : IsTotal Rec (fun a b : Rec => a.id ≤ b.id) := ⟨fun a b => le_total a.id b.id⟩
    haveI : IsTrans Rec (fun a b : Rec => a.id ≤ b.id) :=
      ⟨fun _ _ _ h1 h2 => le_trans h1 h2⟩
    exact (List.sorted_insertionSort _ t).map _
      (fun a b h => by simpa [applyStatus_id] using h)
  · rw [printRecords, hidmap]
    exact (List.perm_insertionSort _ t).map Rec.id
  · simp [paginate, List.getElem?_take, List.getElem?_drop]

/-- C9: the CSV export has the header row of the model's column names in
schema order followed by exactly one row per record; each record row
renders each column through the dict built by `row_to_dict`; and a date or
datetime value renders as its ISO date string while a NULL renders as the
empty string. -/
theorem c9_csv_export :
    (∀ (cols : List Column) (rows : List (List (String × Value))),
        (csvExport cols rows).head? = some (cols.map Column.name))
  ∧ (∀ (cols : List Column) (rows : List (List (String × Value))),
        (csvExport cols rows).length = rows.length + 1)
  ∧ (∀ (cols : List Column) (rows : List (List (String × Value)))
        (i : Nat) (r : List (String × Value)), rows[i]? = some r →
        (csvExport cols rows)[i + 1]? =
          some (cols.map (fun c => csvCell ((r.lookup c.name).getD .vNone))))
  ∧ (∀ (cols : List Column) (r : Rec) (c : Column),
        (cols.map Column.name).Nodup → c ∈ cols →
        ((row_to_dict cols r).lookup c.name).getD .vNone =
          dictValue c (Rec.get r c.name))
  ∧ (∀ (c : Column) (y m d : Nat), csvCell (dictValue c (.vDate y m d)) = isoDate y m d)
  ∧ (∀ (c : Column) (y m d h mi se : Nat),
        csvCell (dictValue c (.vDatetime y m d h mi se)) = isoDate y m d)
  ∧ (∀ c : Column, csvCell (dictValue c .vNone) = "") := by
  refine ⟨fun cols rows => rfl, fun cols rows => by simp [csvExport],
    fun cols rows i r hi => ?_, fun cols r c hnd hc => ?_,
    fun c y m d => ?_, fun c y m d h mi se => rfl, fun c => rfl⟩
  · simp [csvExport, List.getElem?_map, hi]
  · rw [row_to_dict, lookup_mapCols (fun c' => dictValue c' (Rec.get r c'.name)) cols hnd c hc]
    rfl
  · cases hcd : c.isDate <;> simp [dictValue, csvCell, pyStr, hcd]

/-- An admin session used by the concrete witnesses. -/
def sampleSession : Session := ⟨some "captain", some "admin"⟩

/-- A concrete indigency row used by the witnesses. -/
def sampleRow : Rec :=
  ⟨1, [("name", .vStr "Juan Dela Cruz"), ("address", .vStr "Zone 1"),
       ("gender", .vStr "Male"), ("purpose", .vStr "scholarship"),
       ("status", .vStr "Valid"), ("date_issued", .vDate 2026 3 26)]⟩

/-- A concrete state with the two default users, one indigency record and
one audit entry. -/
def sampleState : AppState :=
  { users := [⟨1, "captain", "pbkdf2:captain123", "admin"⟩,
              ⟨2, "secretary", "pbkdf2:secretary123", "staff"⟩],
    barangay_id := [], clearance := [], indigency := [sampleRow],
    good_moral := [], first_job_seeker := [],
    activity_log := [⟨"captain", "CREATE", "indigency", some "1 - Juan Dela Cruz"⟩] }

/-- C1 counterexample: `reset_database` protects only the `user` table, so
a reset deletes all audit rows — afterwards the `ActivityLog` row set is
empty, not a superset of the nonempty set before the operation. -/
theorem c1_counterexample :
    sampleState.activity_log ≠ [] ∧
    (step sampleSession Op.reset sampleState).activity_log = [] := by
  exact ⟨by decide, rfl⟩

/-- C1 amended: every operation except `restore_database` and
`reset_database` (record create / edit / delete, user create / password
update / password reset / user delete / forgot-password, backup) only ever
appends to the activity log, so the prior rows survive it; `reset_database`
deletes all audit rows and `restore_database` replaces them with the
backup's rows. -/
theorem c1_append_only (sess : Session) (op : Op) (s : AppState)
    (hrestore : ∀ b, op ≠ Op.restore b) (hreset : op ≠ Op.reset) :
    ∃ t, (step sess op s).activity_log = s.activity_log ++ t := by
  cases op with
  | create rt form =>
    simp only [step, createRecord]
    split
    · exact ⟨[], (List.append_nil _).symm⟩
    · split
      · split
        · exact ⟨[], (List.append_nil _).symm⟩
        · simp only [log_activity_log, setTable_activity_log]
          exact ⟨_, rfl⟩
      · simp only [log_activity_log, setTable_activity_log]
        exact ⟨_, rfl⟩
  | edit rt rid form =>
    simp only [step, editRecord]
    split
    · exact ⟨[], (List.append_nil _).symm⟩
    · simp only [log_activity_log, setTable_activity_log]
      exact ⟨_, rfl⟩
  | delete rt rid =>
    simp only [step, deleteRecord]
    split
    · exact ⟨[], (List.append_nil _).symm⟩
    · simp only [log_activity_log, setTable_activity_log]
      exact ⟨_, rfl⟩
  | addUser form =>
    simp only [step, add_user]
    split
    · exact ⟨[], (List.append_nil _).symm⟩
    · split
      · exact ⟨[], (List.append_nil _).symm⟩
      · simp only [log_activity_log]
        exact ⟨_, rfl⟩
  | updatePassword form =>
    simp only [step, update_password]
    split
    · exact ⟨[], (List.append_nil _).symm⟩
    · split
      · exact ⟨[], (List.append_nil _).symm⟩
      · simp only [log_activity_log]
        exact ⟨_, rfl⟩
  | resetUserPassword uid =>
    simp only [step, reset_user_password]
    split
    · exact ⟨[], (List.append_nil _).symm⟩
    · split
      · exact ⟨[], (List.append_nil _).symm⟩
      · simp only [log_activity_log]
        exact ⟨_, rfl⟩
  | deleteUser uid =>
    simp only [step, delete_user]
    split
    · exact ⟨[], (List.append_nil _).symm⟩
    · split
      · exact ⟨[], (List.append_nil _).symm⟩
      · simp only [log_activity_log]
        exact ⟨_, rfl⟩
  | forgotPassword form =>
    simp only [step, forgot_password]
    split
    · exact ⟨[], (List.append_nil _).symm⟩
    · simp only [log_activity_log]
      exact ⟨_, rfl⟩
  | backup => exact ⟨[], (List.append_nil _).symm⟩
  | restore b => exact absurd rfl (hrestore b)
  | reset => exact absurd rfl hreset

/-- C1 witness: a concrete create request appends to the concrete state's
activity log. -/
theorem c1_append_only_witness :
    ∃ t, (step sampleSession (Op.create RType.barangayID [("name", "Pedro Penduko")])
            sampleState).activity_log = sampleState.activity_log ++ t :=
  c1_append_only sampleSession (Op.create RType.barangayID [("name", "Pedro Penduko")])
    sampleState (fun b => by simp) (by simp)

/-- C3 counterexample: the `update_password` route has no admin check — a
`staff` session's request changes the stored password hash, so the User
table does change. -/
theorem c3_counterexample :
    (⟨some "secretary", some "staff"⟩ : Session).role ≠ some "admin" ∧
    (update_password ⟨some "secretary", some "staff"⟩
        [("username", "captain"), ("new_password", "letmein"),
         ("confirm_password", "letmein")] sampleState).users ≠ sampleState.users := by
  exact ⟨by decide, by decide⟩

/-- C3 amended: user create (`add_user`), per-user password reset
(`reset_user_password`) and user delete (`delete_user`) run only for an
admin session and otherwise leave the state unchanged; the
`update_password` route and the pre-login `forgot_password` route perform
their password change for any session role whenever their own checks
(confirmation match, username exists) pass. -/
theorem c3_admin_gating :
    (∀ (sess : Session) (form : Form) (s : AppState),
        ¬sess.role = some "admin" → add_user sess form s = s)
  ∧ (∀ (sess : Session) (uid : Nat) (s : AppState),
        ¬sess.role = some "admin" → reset_user_password sess uid s = s)
  ∧ (∀ (sess : Session) (uid : Nat) (s : AppState),
        ¬sess.role = some "admin" → delete_user sess uid s = s)
  ∧ (∀ (sess : Session) (form : Form) (s : AppState) (u : UserRec) (pw : String),
        formGet form "new_password" = some pw →
        formGet form "confirm_password" = some pw →
        s.users.find? (fun x => formGet form "username" == some x.username) = some u →
        (update_password sess form s).users = s.users.map (fun x =>
          if x.id == u.id then { x with password := generate_password_hash pw } else x))
  ∧ (∀ (sess : Session) (form : Form) (s : AppState) (u : UserRec),
        s.users.find? (fun x => formGet form "username" == some x.username) = some u →
        (forgot_password sess form s).users = s.users.map (fun x =>
          if x.id == u.id then
            { x with password :=
                generate_password_hash ((formGet form "username").getD "" ++ "123") }
          else x)) := by
  refine ⟨fun sess form s h => ?_, fun sess uid s h => ?_, fun sess uid s h => ?_,
    fun sess form s u pw h1 h2 hfind => ?_, fun sess form s u hfind => ?_⟩
  · have hb : (sess.role == some "admin") = false := by simpa using h
    simp [add_user, hb]
  · have hb : (sess.role == some "admin") = false := by simpa using h
    simp [reset_user_password, hb]
  · have hb : (sess.role == some "admin") = false := by simpa using h
    simp [delete_user, hb]
  · simp [update_password, h1, h2, hfind, log_activity]
  · simp [forgot_password, hfind, log_activity]

/-- C3 witness: a non-admin session's `add_user` request leaves the
concrete state untouched. -/
theorem c3_admin_gating_witness :
    add_user ⟨some "secretary", some "staff"⟩
      [("username", "mole"), ("password", "x"), ("role", "admin")] sampleState =
      sampleState :=
  c3_admin_gating.1 ⟨some "secretary", some "staff"⟩
    [("username", "mole"), ("password", "x"), ("role", "admin")] sampleState (by decide)

/-- C7 counterexample: on the edit path a date string rejected by both
parses is stored as the raw string, not NULL, and an empty `status` is not
defaulted to `"Valid"` (it is left as the coercion of its form value —
NULL here, where the claim requires `"Valid"`). -/
theorem c7_counterexample :
    parseYMD "next week" = none ∧ parseIsoDatetime "next week" = none ∧
    coerceEdit (dateCol "date_issued") (some "next week") = .vStr "next week" ∧
    (editFields (recordCols RType.indigency) [("name", "Juan Dela Cruz")]
        sampleRow).fields.lookup "status" = some Value.vNone := by
  exact ⟨rfl, rfl, rfl, rfl⟩

/-- C7 amended: on the create path coercion is silently total as claimed —
a non-empty date string failing both the `%Y-%m-%d` parse and the
`fromisoformat` parse stores NULL, a successful parse stores the
date / datetime, a failed integer parse keeps the raw string, and an empty
`status` defaults to `"Valid"`.  On the edit path, a failed `%Y-%m-%d`
parse keeps the raw string (no general parse, no NULL), and there is no
status defaulting: every non-id column stores exactly the edit coercion of
its own form value. -/
theorem c7_coercion :
    (∀ (c : Column) (str : String), c.isDate = true → ¬str = "" →
        parseYMD str = none → parseIsoDatetime str = none →
        coerceCreate c (some str) = .vNone)
  ∧ (∀ (c : Column) (str : String) (y m d : Nat), c.isDate = true → ¬str = "" →
        parseYMD str = some (y, m, d) → coerceCreate c (some str) = .vDate y m d)
  ∧ (∀ (c : Column) (str : String) (y m d h mi se : Nat), c.isDate = true → ¬str = "" →
        parseYMD str = none → parseIsoDatetime str = some (y, m, d, h, mi, se) →
        coerceCreate c (some str) = .vDatetime y m d h mi se)
  ∧ (∀ (c : Column) (str : String), c.isDate = false → c.isNumeric = true →
        ¬str = "" → pyInt? str = none → coerceCreate c (some str) = .vStr str)
  ∧ (∀ (cols : List Column) (fs : List (String × Value)) (v : Value),
        hasField cols "status" = true → fs.lookup "status" = some v →
        v.truthy = false →
        (defaultStatus cols fs).lookup "status" = some (.vStr "Valid"))
  ∧ (∀ (c : Column) (str : String), c.isDate = true → ¬str = "" →
        parseYMD str = none → coerceEdit c (some str) = .vStr str)
  ∧ (∀ (rt : RType) (form : Form) (r : Rec) (c : Column),
        c ∈ recordCols rt → ¬c.name = "id" →
        (editFields (recordCols rt) form r).fields.lookup c.name =
          some (coerceEdit c (formGet form c.name))) := by
  refine ⟨fun c str h1 h2 h3 h4 => ?_, fun c str y m d h1 h2 h3 => ?_,
    fun c str y m d h mi se h1 h2 h3 h4 => ?_, fun c str h1 h2 h3 h4 => ?_,
    fun cols fs v h1 h2 h3 => ?_, fun c str h1 h2 h3 => ?_,
    fun rt form r c hc hid => ?_⟩
  · have hb : (str == "") = false := by simpa using h2
    simp [coerceCreate, hb, h1, h3, h4]
  · have hb : (str == "") = false := by simpa using h2
    simp [coerceCreate, hb, h1, h3]
  · have hb : (str == "") = false := by simpa using h2
    simp [coerceCreate, hb, h1, h3, h4]
  · have hb : (str == "") = false := by simpa using h3
    simp [coerceCreate, hb, h1, h2, h4]
  · have hv : ((fs.lookup "status").getD Value.vNone).truthy = false := by
      rw [h2]; exact h3
    rw [defaultStatus, if_pos (by rw [h1, hv]; rfl)]
    exact lookup_setField h2
  · have hb : (str == "") = false := by simpa using h2
    simp [coerceEdit, hb, h1, h3]
  · exact lookup_colFields (fun c' => coerceEdit c' (formGet form c'.name))
      (recordCols rt) (recordCols_nodup rt) c hc hid

/-- C7 witness: concrete instances of the create-path NULL fallback, the
create-path raw-string keep for numbers, the status default, and the
edit-path raw-string keep. -/
theorem c7_coercion_witness :
    coerceCreate (dateCol "date_issued") (some "13 January 2026") = .vNone ∧
    coerceCreate (intCol "length_of_residency") (some "five") = .vStr "five" ∧
    (defaultStatus (recordCols RType.indigency)
        [("name", .vStr "Ana"), ("status", .vStr "")]).lookup "status" =
      some (.vStr "Valid") ∧
    coerceEdit (dateCol "date_issued") (some "13 January 2026") =
      .vStr "13 January 2026" :=
  ⟨c7_coercion.1 (dateCol "date_issued") "13 January 2026" rfl (by decide)
      (by decide) (by decide),
   c7_coercion.2.2.2.1 (intCol "length_of_residency") "five" rfl rfl (by decide)
      (by decide),
   c7_coercion.2.2.2.2.1 (recordCols RType.indigency)
      [("name", .vStr "Ana"), ("status", .vStr "")] (.vStr "") (by decide) (by decide)
      (by decide),
   c7_coercion.2.2.2.2.2.1 (dateCol "date_issued") "13 January 2026" rfl (by decide)
      (by decide)⟩

/-- C10 counterexample: a column submitted as the empty string is stored as
the empty string on edit, not as NULL as the claim states. -/
theorem c10_counterexample :
    (editFields (recordCols RType.clearance) [("name", "")]
        sampleRow).fields.lookup "name" = some (Value.vStr "") ∧
    Value.vStr "" ≠ Value.vNone := by
  exact ⟨rfl, by decide⟩

/-- C10 amended: on an edit submission every non-id column is assigned the
edit coercion of its form value — a column absent from the form becomes
NULL (including `name`), while a column submitted empty becomes the empty
string — and neither the required-field check nor the duplicate-name check
of the create path is applied: whenever the record id exists, the edit
commits for any form whatsoever. -/
theorem c10_edit_overwrites :
    (∀ (rt : RType) (form : Form) (r : Rec) (c : Column),
        c ∈ recordCols rt → ¬c.name = "id" →
        (editFields (recordCols rt) form r).fields.lookup c.name =
          some (coerceEdit c (formGet form c.name)))
  ∧ (∀ c : Column, coerceEdit c none = .vNone)
  ∧ (∀ c : Column, coerceEdit c (some "") = .vStr "")
  ∧ (∀ (sess : Session) (rt : RType) (rid : Nat) (form : Form) (s : AppState)
        (r : Rec), (getTable s rt).find? (fun x => x.id == rid) = some r →
        editRecord sess rt rid form s =
          log_activity sess "UPDATE" (tableName rt)
            (some (best_display (editFields (recordCols rt) form r)))
            (setTable s rt ((getTable s rt).map
              (fun x => if x.id == rid then editFields (recordCols rt) form r else x)))) := by
  refine ⟨fun rt form r c hc hid => ?_, fun c => rfl, fun c => rfl,
    fun sess rt rid form s r hfind => ?_⟩
  · exact lookup_colFields (fun c' => coerceEdit c' (formGet form c'.name))
      (recordCols rt) (recordCols_nodup rt) c hc hid
  · simp only [editRecord, hfind]

/-- C10 witness: a concrete edit whose form omits `name` and carries no
checks still commits, and the omitted column reads back NULL. -/
theorem c10_edit_overwrites_witness :
    (editFields (recordCols RType.indigency) [("purpose", "financial aid")]
        sampleRow).fields.lookup "name" =
      some (coerceEdit nameCol (formGet [("purpose", "financial aid")] "name")) ∧
    coerceEdit nameCol none = Value.vNone :=
  ⟨c10_edit_overwrites.1 RType.indigency [("purpose", "financial aid")] sampleRow
      nameCol (by decide) (by decide),
   c10_edit_overwrites.2.1 nameCol⟩

/-- C2 witness: with an issue date 200 days before today, a
non-`business` purpose derives `"Expired"` and a `business` purpose
derives `"Valid"`. -/
theorem c2_derived_status_witness :
    deriveStatus "scholarship" (20000 - 200) 20000 = "Expired" ∧
    deriveStatus "Business permit" (20000 - 200) 20000 = "Valid" :=
  ⟨c2_derived_status.2.2.2.1 "scholarship" 20000 (by decide),
   c2_derived_status.2.2.2.2.1 "Business permit" 20000 (by decide)⟩

/-- C5 witness: a concrete good-moral create submission without a `name`
is rejected with the message naming it and the concrete state is
unchanged. -/
theorem c5_missing_required_field_witness :
    createRecord sampleSession RType.goodmoral [("address", "Zone 2")] sampleState =
      (.missingField "'Name' is required!", sampleState) :=
  c5_missing_required_field.2 sampleSession RType.goodmoral [("address", "Zone 2")]
    sampleState (by decide)

/-- A concrete clearance row named `Juan` for the duplicate-name witness. -/
def c6Row : Rec :=
  ⟨1, [("name", .vStr "Juan"), ("address", .vStr "Zone 3"),
       ("phone_number", .vNone), ("birthday", .vNone), ("birthplace", .vNone),
       ("gender", .vStr "Male"), ("civil_status", .vNone),
       ("purpose", .vStr "employment"), ("status", .vStr "Valid"),
       ("date_issued", .vDate 2026 1 5)]⟩

/-- A concrete state whose clearance table holds `Juan` while the indigency
table is empty. -/
def c6State : AppState :=
  { users := [⟨1, "captain", "pbkdf2:captain123", "admin"⟩],
    barangay_id := [], clearance := [c6Row], indigency := [],
    good_moral := [], first_job_seeker := [], activity_log := [] }

/-- A concrete create form named `Juan`. -/
def c6Form : Form := [("name", "Juan"), ("address", "Zone 4")]

/-- C6 witness: creating a second `Juan` clearance is rejected with the
concrete state unchanged, while creating a `Juan` indigency — the same
name under a different record type — succeeds and appends to the indigency
table only. -/
theorem c6_duplicate_name_witness :
    createRecord sampleSession RType.clearance c6Form c6State =
      (.duplicate "This person already exists in the records!", c6State) ∧
    createRecord sampleSession RType.indigency c6Form c6State =
      (.created ⟨nextId (getTable c6State RType.indigency),
          defaultStatus (recordCols RType.indigency)
            (createFields (recordCols RType.indigency) c6Form)⟩,
        log_activity sampleSession "CREATE" (tableName RType.indigency)
          (some (best_display ⟨nextId (getTable c6State RType.indigency),
            defaultStatus (recordCols RType.indigency)
              (createFields (recordCols RType.indigency) c6Form)⟩))
          (setTable c6State RType.indigency (getTable c6State RType.indigency ++
            [⟨nextId (getTable c6State RType.indigency),
              defaultStatus (recordCols RType.indigency)
                (createFields (recordCols RType.indigency) c6Form)⟩]))) :=
  ⟨c6_duplicate_name.1 sampleSession RType.clearance c6Form c6State "Juan"
      (by decide) (by decide) (by decide),
   c6_duplicate_name.2 sampleSession RType.indigency c6Form c6State "Juan"
      (by decide) (by decide) (by decide)⟩

/-- C9 witness: for a one-record indigency table, the row after the header
is the record's rendered cells, and the `date_issued` dict entry is the
ISO rendering of its stored date. -/
theorem c9_csv_export_witness :
    (csvExport (recordCols RType.indigency)
        [row_to_dict (recordCols RType.indigency) sampleRow])[0 + 1]? =
      some ((recordCols RType.indigency).map (fun c =>
        csvCell (((row_to_dict (recordCols RType.indigency) sampleRow).lookup
          c.name).getD .vNone))) ∧
    ((row_to_dict (recordCols RType.indigency) sampleRow).lookup
        (dateCol "date_issued").name).getD .vNone =
      dictValue (dateCol "date_issued")
        (Rec.get sampleRow (dateCol "date_issued").name) :=
  ⟨c9_csv_export.2.2.1 (recordCols RType.indigency)
      [row_to_dict (recordCols RType.indigency) sampleRow] 0
      (row_to_dict (recordCols RType.indigency) sampleRow) rfl,
   c9_csv_export.2.2.2.1 (recordCols RType.indigency) sampleRow
      (dateCol "date_issued") (by decide) (by decide)⟩

end Brgy
